import Mathlib

/-!
Verification of the slowmade HD-wallet core: shallow embedding of the
crypto, mnemonic, key-service, storage and wallet-manager code, together
with proofs and refutations of the specification claims C1-C10.

Bytes are modelled as `Nat` values below 256, byte strings as `List Nat`.
Go strings are Lean `String`s; `[]byte(s)` is `strBytes s` (UTF-8).
Machine-word arithmetic is `Nat` arithmetic reduced mod 2^32 / 2^64.
-/

set_option maxRecDepth 40000

namespace Slowmade

/-! ## Byte, bit and hex helpers -/

/-- UTF-8 encoding of one character (RFC 3629). -/
def charUtf8 (c : Char) : List Nat :=
  let n := c.toNat
  if n < 128 then [n]
  else if n < 2048 then [192 + n / 64, 128 + n % 64]
  else if n < 65536 then [224 + n / 4096, 128 + n / 64 % 64, 128 + n % 64]
  else [240 + n / 262144, 128 + n / 4096 % 64, 128 + n / 64 % 64, 128 + n % 64]

/-- Go `[]byte(s)`: the UTF-8 bytes of a string. -/
def strBytes (s : String) : List Nat :=
  (s.data.map charUtf8).flatten

/-- Lowercase hex digit for a value below 16. -/
def hexCharOfNat (n : Nat) : Char :=
  if n < 10 then Char.ofNat (48 + n) else Char.ofNat (87 + n)

/-- Go `hex.EncodeToString`: lowercase hex of a byte string. -/
def hexEncode (bs : List Nat) : String :=
  String.mk ((bs.map (fun b => [hexCharOfNat (b / 16), hexCharOfNat (b % 16)])).flatten)

/-- Value of one hex digit, accepting both cases (as Go `hex.DecodeString` does). -/
def hexVal (c : Char) : Option Nat :=
  if 48 ≤ c.toNat ∧ c.toNat ≤ 57 then some (c.toNat - 48)
  else if 97 ≤ c.toNat ∧ c.toNat ≤ 102 then some (c.toNat - 87)
  else if 65 ≤ c.toNat ∧ c.toNat ≤ 70 then some (c.toNat - 55)
  else none

/-- Decode a list of hex digits two at a time; `none` on odd length or a bad digit. -/
def hexPairs : List Char → Option (List Nat)
  | [] => some []
  | [_] => none
  | a :: b :: rest =>
    match hexVal a, hexVal b, hexPairs rest with
    | some x, some y, some l => some ((16 * x + y) :: l)
    | _, _, _ => none

/-- Go `hex.DecodeString`. -/
def hexDecode (s : String) : Option (List Nat) :=
  hexPairs s.data

/-- Split a list into chunks of `n` elements (`fuel` bounds the recursion;
callers pass the list length). -/
def chunkFuel {α : Type} (n : Nat) : Nat → List α → List (List α)
  | 0, _ => []
  | _, [] => []
  | fuel + 1, x :: xs => ((x :: xs).take n) :: chunkFuel n fuel ((x :: xs).drop n)

/-- Split a list into chunks of `n` elements (the final chunk may be short). -/
def chunkL {α : Type} (n : Nat) (l : List α) : List (List α) :=
  chunkFuel n l.length l

/-- Big-endian interpretation of a byte list as one machine word. -/
def bytesToWordBE (bs : List Nat) : Nat :=
  bs.foldl (fun a b => 256 * a + b) 0

/-- `n` big-endian bytes of a value. -/
def natToBeBytes : Nat → Nat → List Nat
  | 0, _ => []
  | n + 1, v => natToBeBytes n (v / 256) ++ [v % 256]

/-! ## SHA-256 (FIPS 180-4), executable model of Go `crypto/sha256` -/

def u32 (x : Nat) : Nat := x % 4294967296

def rotr32 (n x : Nat) : Nat := u32 ((x >>> n) ||| (x <<< (32 - n)))

def bigSigma0 (x : Nat) : Nat := ((rotr32 2 x) ^^^ (rotr32 13 x)) ^^^ (rotr32 22 x)

def bigSigma1 (x : Nat) : Nat := ((rotr32 6 x) ^^^ (rotr32 11 x)) ^^^ (rotr32 25 x)

def smallSigma0 (x : Nat) : Nat := ((rotr32 7 x) ^^^ (rotr32 18 x)) ^^^ (x >>> 3)

def smallSigma1 (x : Nat) : Nat := ((rotr32 17 x) ^^^ (rotr32 19 x)) ^^^ (x >>> 10)

/-- The eight working registers of a SHA-2 compression state. -/
structure HashState where
  r0 : Nat
  r1 : Nat
  r2 : Nat
  r3 : Nat
  r4 : Nat
  r5 : Nat
  r6 : Nat
  r7 : Nat
deriving DecidableEq

def sha256Init : HashState :=
  ⟨1779033703, 3144134277, 1013904242, 2773480762,
   1359893119, 2600822924, 528734635, 1541459225⟩  -- FIPS 180-4 initial hash words, written in decimal

/-- The 64 SHA-256 round constants of FIPS 180-4, written in decimal; the test
vectors below pin them. -/
def k256 : List Nat :=
  [1116352408, 1899447441, 3049323471, 3921009573, 961987163, 1508970993,
   2453635748, 2870763221, 3624381080, 310598401, 607225278, 1426881987,
   1925078388, 2162078206, 2614888103, 3248222580, 3835390401, 4022224774,
   264347078, 604807628, 770255983, 1249150122, 1555081692, 1996064986,
   2554220882, 2821834349, 2952996808, 3210313671, 3336571891, 3584528711,
   113926993, 338241895, 666307205, 773529912, 1294757372, 1396182291,
   1695183700, 1986661051, 2177026350, 2456956037, 2730485921, 2820302411,
   3259730800, 3345764771, 3516065817, 3600352804, 4094571909, 275423344,
   430227734, 506948616, 659060556, 883997877, 958139571, 1322822218,
   1537002063, 1747873779, 1955562222, 2024104815, 2227730452, 2361852424,
   2428436474, 2756734187, 3204031479, 3329325298]

/-- Extend the 16 message words by `n` further schedule words. -/
def sha256Extend : Nat → List Nat → List Nat
  | 0, ws => ws
  | n + 1, ws =>
    let k := ws.length
    let w := u32 (smallSigma1 (ws.getD (k - 2) 0) + ws.getD (k - 7) 0 +
                  smallSigma0 (ws.getD (k - 15) 0) + ws.getD (k - 16) 0)
    sha256Extend n (ws ++ [w])

def sha256Round (st : HashState) (kw : Nat × Nat) : HashState :=
  let ch := (st.r4 &&& st.r5) ^^^ ((st.r4 ^^^ 4294967295) &&& st.r6)
  let maj := ((st.r0 &&& st.r1) ^^^ (st.r0 &&& st.r2)) ^^^ (st.r1 &&& st.r2)
  let t1 := u32 (st.r7 + bigSigma1 st.r4 + ch + kw.1 + kw.2)
  let t2 := u32 (bigSigma0 st.r0 + maj)
  ⟨u32 (t1 + t2), st.r0, st.r1, st.r2, u32 (st.r3 + t1), st.r4, st.r5, st.r6⟩

def sha256Compress (st : HashState) (block : List Nat) : HashState :=
  let ws := sha256Extend 48 ((chunkL 4 block).map bytesToWordBE)
  let f := (k256.zip ws).foldl sha256Round st
  ⟨u32 (st.r0 + f.r0), u32 (st.r1 + f.r1), u32 (st.r2 + f.r2), u32 (st.r3 + f.r3),
   u32 (st.r4 + f.r4), u32 (st.r5 + f.r5), u32 (st.r6 + f.r6), u32 (st.r7 + f.r7)⟩

/-- SHA-2 padding: append 0x80, zeros, and the bit length on `lenBytes` bytes,
up to a multiple of `blockLen`. -/
def shaPad (blockLen lenBytes : Nat) (msg : List Nat) : List Nat :=
  let l := msg.length
  let k := (blockLen - (l + 1 + lenBytes) % blockLen) % blockLen
  msg ++ 128 :: List.replicate k 0 ++ natToBeBytes lenBytes (l * 8)

def stateToBytes32 (st : HashState) : List Nat :=
  natToBeBytes 4 st.r0 ++ natToBeBytes 4 st.r1 ++ natToBeBytes 4 st.r2 ++ natToBeBytes 4 st.r3 ++
  natToBeBytes 4 st.r4 ++ natToBeBytes 4 st.r5 ++ natToBeBytes 4 st.r6 ++ natToBeBytes 4 st.r7

/-- SHA-256 of a byte string. -/
def sha256 (msg : List Nat) : List Nat :=
  stateToBytes32 ((chunkL 64 (shaPad 64 8 msg)).foldl sha256Compress sha256Init)

/-! ## SHA-512 (FIPS 180-4), executable model of Go `crypto/sha512` -/

def u64 (x : Nat) : Nat := x % 18446744073709551616

def rotr64 (n x : Nat) : Nat := u64 ((x >>> n) ||| (x <<< (64 - n)))

def bigSigma0w (x : Nat) : Nat := ((rotr64 28 x) ^^^ (rotr64 34 x)) ^^^ (rotr64 39 x)

def bigSigma1w (x : Nat) : Nat := ((rotr64 14 x) ^^^ (rotr64 18 x)) ^^^ (rotr64 41 x)

def smallSigma0w (x : Nat) : Nat := ((rotr64 1 x) ^^^ (rotr64 8 x)) ^^^ (x >>> 7)

def smallSigma1w (x : Nat) : Nat := ((rotr64 19 x) ^^^ (rotr64 61 x)) ^^^ (x >>> 6)

def sha512Init : HashState :=
  ⟨7640891576956012808, 13503953896175478587, 4354685564936845355,
   11912009170470909681, 5840696475078001361, 11170449401992604703,
   2270897969802886507, 6620516959819538809⟩  -- FIPS 180-4 initial hash words, written in decimal

/-- The 80 SHA-512 round constants of FIPS 180-4, written in decimal; the test
vectors below pin them. -/
def k512 : List Nat :=
  [4794697086780616226, 8158064640168781261, 13096744586834688815, 16840607885511220156,
   4131703408338449720, 6480981068601479193, 10538285296894168987, 12329834152419229976,
   15566598209576043074, 1334009975649890238, 2608012711638119052, 6128411473006802146,
   8268148722764581231, 9286055187155687089, 11230858885718282805, 13951009754708518548,
   16472876342353939154, 17275323862435702243, 1135362057144423861, 2597628984639134821,
   3308224258029322869, 5365058923640841347, 6679025012923562964, 8573033837759648693,
   10970295158949994411, 12119686244451234320, 12683024718118986047, 13788192230050041572,
   14330467153632333762, 15395433587784984357, 489312712824947311, 1452737877330783856,
   2861767655752347644, 3322285676063803686, 5560940570517711597, 5996557281743188959,
   7280758554555802590, 8532644243296465576, 9350256976987008742, 10552545826968843579,
   11727347734174303076, 12113106623233404929, 14000437183269869457, 14369950271660146224,
   15101387698204529176, 15463397548674623760, 17586052441742319658, 1182934255886127544,
   1847814050463011016, 2177327727835720531, 2830643537854262169, 3796741975233480872,
   4115178125766777443, 5681478168544905931, 6601373596472566643, 7507060721942968483,
   8399075790359081724, 8693463985226723168, 9568029438360202098, 10144078919501101548,
   10430055236837252648, 11840083180663258601, 13761210420658862357, 14299343276471374635,
   14566680578165727644, 15097957966210449927, 16922976911328602910, 17689382322260857208,
   500013540394364858, 748580250866718886, 1242879168328830382, 1977374033974150939,
   2944078676154940804, 3659926193048069267, 4368137639120453308, 4836135668995329356,
   5532061633213252278, 6448918945643986474, 6902733635092675308, 7801388544844847127]

def sha512Extend : Nat → List Nat → List Nat
  | 0, ws => ws
  | n + 1, ws =>
    let k := ws.length
    let w := u64 (smallSigma1w (ws.getD (k - 2) 0) + ws.getD (k - 7) 0 +
                  smallSigma0w (ws.getD (k - 15) 0) + ws.getD (k - 16) 0)
    sha512Extend n (ws ++ [w])

def sha512Round (st : HashState) (kw : Nat × Nat) : HashState :=
  let ch := (st.r4 &&& st.r5) ^^^ ((st.r4 ^^^ 18446744073709551615) &&& st.r6)
  let maj := ((st.r0 &&& st.r1) ^^^ (st.r0 &&& st.r2)) ^^^ (st.r1 &&& st.r2)
  let t1 := u64 (st.r7 + bigSigma1w st.r4 + ch + kw.1 + kw.2)
  let t2 := u64 (bigSigma0w st.r0 + maj)
  ⟨u64 (t1 + t2), st.r0, st.r1, st.r2, u64 (st.r3 + t1), st.r4, st.r5, st.r6⟩

def sha512Compress (st : HashState) (block : List Nat) : HashState :=
  let ws := sha512Extend 64 ((chunkL 8 block).map bytesToWordBE)
  let f := (k512.zip ws).foldl sha512Round st
  ⟨u64 (st.r0 + f.r0), u64 (st.r1 + f.r1), u64 (st.r2 + f.r2), u64 (st.r3 + f.r3),
   u64 (st.r4 + f.r4), u64 (st.r5 + f.r5), u64 (st.r6 + f.r6), u64 (st.r7 + f.r7)⟩

def stateToBytes64 (st : HashState) : List Nat :=
  natToBeBytes 8 st.r0 ++ natToBeBytes 8 st.r1 ++ natToBeBytes 8 st.r2 ++ natToBeBytes 8 st.r3 ++
  natToBeBytes 8 st.r4 ++ natToBeBytes 8 st.r5 ++ natToBeBytes 8 st.r6 ++ natToBeBytes 8 st.r7

/-- SHA-512 of a byte string. -/
def sha512 (msg : List Nat) : List Nat :=
  stateToBytes64 ((chunkL 128 (shaPad 128 16 msg)).foldl sha512Compress sha512Init)

/-! ## HMAC and PBKDF2, models of Go `crypto/hmac` / `golang.org/x/crypto/pbkdf2` -/

def zipXor (a b : List Nat) : List Nat :=
  List.zipWith (fun x y => x ^^^ y) a b

/-- HMAC (RFC 2104) over `hash` with block size `blockSize`. -/
def hmac (hash : List Nat → List Nat) (blockSize : Nat) (key msg : List Nat) : List Nat :=
  let k0 := if blockSize < key.length then hash key else key
  let k := k0 ++ List.replicate (blockSize - k0.length) 0
  hash ((k.map (fun b => b ^^^ 92)) ++ hash ((k.map (fun b => b ^^^ 54)) ++ msg))

/-- U₂ … U_c of one PBKDF2 block, xor-accumulated. -/
def pbkdf2Inner (prf : List Nat → List Nat) : Nat → List Nat → List Nat → List Nat
  | 0, _, acc => acc
  | n + 1, u, acc =>
    let u2 := prf u
    pbkdf2Inner prf n u2 (zipXor acc u2)

/-- One PBKDF2 output block F(password, salt, c, i). -/
def pbkdf2Block (prf : List Nat → List Nat) (salt : List Nat) (iter blockIndex : Nat) : List Nat :=
  let u1 := prf (salt ++ natToBeBytes 4 blockIndex)
  pbkdf2Inner prf (iter - 1) u1 u1

/-- RFC 2898 PBKDF2: the model of `pbkdf2.Key(password, salt, iter, keyLen, h.New)`,
with `hLen` the output size and `blockSize` the block size of the hash. -/
def pbkdf2Key (password salt : List Nat) (iter keyLen hLen : Nat)
    (hash : List Nat → List Nat) (blockSize : Nat) : List Nat :=
  let prf := hmac hash blockSize password
  let numBlocks := (keyLen + hLen - 1) / hLen
  (((List.range numBlocks).map (fun i => pbkdf2Block prf salt iter (i + 1))).flatten).take keyLen

/-! ## pkg/crypto `crypto_service.go` -/

def errInvalidCiphertext : String := "invalid ciphertext"

def errDecryptionFailed : String := "decryption failed"

/-- The `PBKDF2SHA256` KDF parameters. -/
structure PBKDF2SHA256 where
  Iterations : Nat
  KeyLen : Nat
  SaltLen : Nat

def NewPBKDF2SHA256 : PBKDF2SHA256 := ⟨100000, 32, 16⟩

/-- The Go loop `key := sha256(password); for i := 1; i < iters; i++ { key = sha256(key) }`
performs `n` further applications of SHA-256 after the first. -/
def iterSha256 : Nat → List Nat → List Nat
  | 0, key => key
  | n + 1, key => iterSha256 n (sha256 key)

/-- `PBKDF2SHA256.DeriveKey`: iterated plain SHA-256 of the password, truncated to
`KeyLen` bytes; the `salt` parameter is unused by the source. -/
def PBKDF2SHA256.DeriveKey (p : PBKDF2SHA256) (password : String) (salt : List Nat) : List Nat :=
  (iterSha256 (p.Iterations - 1) (sha256 (strBytes password))).take p.KeyLen

/-- Interface model of `golang.org/x/crypto/chacha20poly1305` as created by `New`
(the non-X variant): `sealA key nonce plaintext` is the ciphertext-with-tag, and
`openA key nonce ct` is authenticated decryption. `New(key).NonceSize() = 12`;
`Open` panics when the nonce length differs from 12 (the panic is modelled at
the call site). -/
structure ChaChaAEAD where
  sealA : List Nat → List Nat → List Nat → List Nat
  openA : List Nat → List Nat → List Nat → Except Unit (List Nat)

def chachaNonceSize : Nat := 12

def chachaNonceSizeX : Nat := 24

/-- `ChaCha20Poly1305Service.Encrypt` with the two CSPRNG draws (salt of
`getSaltLen() = 16` bytes for the three stdlib KDFs, nonce of `aead.NonceSize() = 12`
bytes) passed as inputs; the KDF is the service's `kdf` field. Go builds
`salt ++ nonce ++ aead.Seal(nil, nonce, plaintext, nil)` and hex-encodes it. -/
def chachaEncrypt (cc : ChaChaAEAD) (kdf : String → List Nat → List Nat)
    (salt nonce plaintext : List Nat) (password : String) : String :=
  let key := kdf password salt
  hexEncode (salt ++ nonce ++ cc.sealA key nonce plaintext)

/-- `ChaCha20Poly1305Service.Decrypt`. The source slices the decoded data with
`nonceSize := chacha20poly1305.NonceSizeX` (24) although the service encrypts with
the 12-byte-nonce variant. A `none` result models the Go panic raised by
`aead.Open` on a nonce whose length is not `NonceSize() = 12`. -/
def chachaDecrypt (cc : ChaChaAEAD) (kdf : String → List Nat → List Nat)
    (encoded : String) (password : String) : Option (Except String (List Nat)) :=
  match hexDecode encoded with
  | none => some (Except.error errInvalidCiphertext)
  | some data =>
    let saltLen := 16
    let nonceSize := chachaNonceSizeX
    if data.length < saltLen + nonceSize then some (Except.error errInvalidCiphertext)
    else
      let salt := data.take saltLen
      let nonce := (data.drop saltLen).take nonceSize
      let ct := data.drop (saltLen + nonceSize)
      let key := kdf password salt
      if nonce.length = chachaNonceSize then
        some (match cc.openA key nonce ct with
              | Except.ok p => Except.ok p
              | Except.error _ => Except.error errDecryptionFailed)
      else none

/-! ## pkg/mnemonic and src/unnamed/part_000 `BIP39MnemonicService` -/

/-- `strings.Join(words, " ")`. -/
def joinSpace : List String → String
  | [] => ""
  | [w] => w
  | w :: w2 :: ws => w ++ " " ++ joinSpace (w2 :: ws)

/-- `bytesToBits`: MSB-first bits of each byte, as 0/1 values. -/
def msBytesToBits (data : List Nat) : List Nat :=
  (data.map (fun b => (List.range 8).map (fun j => if b.testBit (7 - j) then 1 else 0))).flatten

/-- `bitsToInt`: big-endian value of a bit group (`value += bit << (len-1-i)`). -/
def msBitsToInt (bits : List Nat) : Nat :=
  bits.foldl (fun v b => 2 * v + b) 0

/-- `calculateChecksum`: SHA-256 first byte shifted right by `8 - entropyBits/32`. -/
def calculateChecksum (entropy : List Nat) : Nat :=
  (sha256 entropy).getD 0 0 >>> (8 - entropy.length * 8 / 32)

/-- The encoder's 11-bit grouping: chunks of 11 bits, a short trailing remainder
dropped (`if i+11 > len(bits) { break }`). -/
def groups11 (bits : List Nat) : List (List Nat) :=
  (chunkL 11 bits).filter (fun g => g.length = 11)

/-- `entropyToMnemonic`: group the bits of the input (entropy with the appended
checksum byte) into 11-bit words, look each up in the word list, join by spaces.
The source indexes `ms.wordList[index]` directly; `getD` keeps the model total. -/
def entropyToMnemonic (wordList : List String) (entropy : List Nat) : String :=
  joinSpace (((groups11 (msBytesToBits entropy)).map msBitsToInt).map (fun i => wordList.getD i ""))

/-- `GenerateMnemonic` with the CSPRNG draw (the entropy bytes) passed as input:
validates the strength, appends `calculateChecksum entropy` as one byte, encodes. -/
def generateMnemonicFromEntropy (wordList : List String) (strength : Nat) (entropy : List Nat) :
    Except String String :=
  if strength % 32 ≠ 0 ∨ strength < 128 ∨ strength > 256 then
    Except.error "强度必须是128, 160, 192, 224, 或256"
  else Except.ok (entropyToMnemonic wordList (entropy ++ [calculateChecksum entropy]))

/-- part_000 `GenerateSeedFromMnemonic`:
`pbkdf2.Key([]byte(mnemonic), []byte("mnemonic"+password), 2048, 64, sha256.New)`. -/
def part000GenerateSeed (mnemonic password : String) : List Nat :=
  pbkdf2Key (strBytes mnemonic) (strBytes ("mnemonic" ++ password)) 2048 64 32 sha256 64

/-- pkg/mnemonic `GenerateSeedFromMnemonic` = `bip39.NewSeed(mnemonic, cloak)`; the
library computes `pbkdf2.Key(mnemonic, "mnemonic"+cloak, 2048, 64, sha512.New)`. -/
def pkgGenerateSeed (mnemonic cloak : String) : List Nat :=
  pbkdf2Key (strBytes mnemonic) (strBytes ("mnemonic" ++ cloak)) 2048 64 64 sha512 128

/-- The spec's BIP-39 encoding, stated for comparison with the source encoders:
the entropy bits followed by the leading `entropyBits/32` bits of SHA-256 over the
entropy, split into 11-bit groups mapped through the word list. -/
def specBip39Mnemonic (wordList : List String) (entropy : List Nat) : String :=
  let bits := msBytesToBits entropy ++ (msBytesToBits (sha256 entropy)).take (entropy.length * 8 / 32)
  joinSpace ((groups11 bits).map (fun g => wordList.getD (msBitsToInt g) ""))

/-! ## src/unnamed/part_014 `keyService` -/

/-- The word list the source ships: only the first 16 BIP-39 English words
(`loadWordLists`, "english"). -/
def wordLists16 : List String :=
  ["abandon", "ability", "able", "about", "above", "absent", "absorb", "abstract",
   "absurd", "abuse", "access", "accident", "account", "accuse", "achieve", "acid"]

/-- part_014 `bytesToBits`: MSB-first booleans. -/
def ksBytesToBits (data : List Nat) : List Bool :=
  (data.map (fun b => (List.range 8).map (fun j => b.testBit (7 - j)))).flatten

/-- part_014 `bitsToInt`. -/
def ksBitsToInt (bits : List Bool) : Nat :=
  bits.foldl (fun v b => 2 * v + (if b then 1 else 0)) 0

/-- part_014 `bitsToBytes`: Go sets bit `7-(i%8)` of byte `i/8` over `(len+7)/8`
bytes, i.e. each 8-bit group packs MSB-first, a short final group padded with
zeros in its low bits. -/
def ksBitsToBytes (bits : List Bool) : List Nat :=
  (chunkL 8 bits).map (fun g => ksBitsToInt g * 2 ^ (8 - g.length))

/-- The encoder loop of `EntropyToMnemonic`: for each start index, the 11-bit
chunk (clamped at the end of `bits`), failing when the value reaches past the
word list. -/
def ksCollectWords (wordlist : List String) (bits : List Bool) : List Nat → Except String (List String)
  | [] => Except.ok []
  | i :: rest =>
    let idx := ksBitsToInt ((bits.drop i).take 11)
    if wordlist.length ≤ idx then Except.error "单词索引超出范围"
    else (ksCollectWords wordlist bits rest).map (fun ws => wordlist.getD idx "" :: ws)

/-- part_014 `keyService.EntropyToMnemonic`. -/
def ksEntropyToMnemonic (entropy : List Nat) : Except String String :=
  if entropy.length < 16 ∨ 32 < entropy.length ∨ entropy.length % 4 ≠ 0 then
    Except.error "熵长度必须是16-32字节且是4的倍数"
  else
    let entropyBits := entropy.length * 8
    let checksumBits := entropyBits / 32
    let checksum := (sha256 entropy).getD 0 0 >>> (8 - checksumBits)
    let bits := ksBytesToBits (entropy ++ [checksum])
    let totalBits := entropyBits + checksumBits
    let starts := (List.range ((totalBits + 10) / 11)).map (fun k => k * 11)
    (ksCollectWords wordLists16 bits starts).map joinSpace

/-- `strings.Split(s, sep)` for a one-character separator, over the characters. -/
def splitOnChar (c : Char) (l : List Char) : List (List Char) :=
  l.foldr (fun x acc =>
    match acc with
    | [] => [[x]]
    | g :: gs => if x = c then [] :: g :: gs else (x :: g) :: gs) [[]]

/-- `strings.Fields` for space-separated text (the mnemonics here contain only
ASCII spaces): maximal nonempty runs between spaces. -/
def goFields (s : String) : List String :=
  ((splitOnChar (Char.ofNat 32) s.data).filter (fun g => g ≠ [])).map (fun g => String.mk g)

/-- `strings.TrimSpace` for ASCII-space padding. -/
def goTrimSpace (s : String) : String :=
  String.mk (((s.data.dropWhile (fun c => decide (c = Char.ofNat 32))).reverse.dropWhile
    (fun c => decide (c = Char.ofNat 32))).reverse)

/-- The word-to-index loop of `MnemonicToEntropy` (first missing word reported). -/
def lookupIndices : List String → Except String (List Nat)
  | [] => Except.ok []
  | w :: rest =>
    match wordLists16.findIdx? (fun x => decide (x = w)) with
    | none => Except.error ("单词不在单词表中: " ++ w)
    | some i => (lookupIndices rest).map (fun l => i :: l)

/-- part_014 `keyService.MnemonicToEntropy`. -/
def ksMnemonicToEntropy (mnemonic : String) : Except String (List Nat) :=
  let words := goFields mnemonic
  if words.length < 12 then Except.error "助记词至少需要12个单词"
  else
    match lookupIndices words with
    | Except.error e => Except.error e
    | Except.ok indices =>
      let totalBits := words.length * 11
      let checksumBits := totalBits / 33
      let entropyBits := totalBits - checksumBits
      let bits := (indices.map (fun idx => (List.range 11).map (fun j => idx.testBit (10 - j)))).flatten
      let entropyBytes := ksBitsToBytes (bits.take entropyBits)
      let actualChecksum := (ksBitsToBytes (bits.drop entropyBits)).getD 0 0 >>> (8 - checksumBits)
      let expectedChecksum := (sha256 entropyBytes).getD 0 0 >>> (8 - checksumBits)
      if actualChecksum ≠ expectedChecksum then Except.error "助记词校验和验证失败"
      else Except.ok entropyBytes

/-- part_014 `keyService.ValidateMnemonic`. -/
def ksValidateMnemonic (mnemonic : String) : Bool :=
  if goTrimSpace mnemonic = "" then false
  else
    let words := goFields mnemonic
    if ¬(words.length = 12 ∨ words.length = 15 ∨ words.length = 18 ∨
         words.length = 21 ∨ words.length = 24) then false
    else if ¬(words.all (fun w => (wordLists16.findIdx? (fun x => decide (x = w))).isSome)) then false
    else
      match ksMnemonicToEntropy mnemonic with
      | Except.ok _ => true
      | Except.error _ => false

/-- part_014 `keyService.SeedFromMnemonic`: validation gate, then
`pbkdf2.Key(mnemonic, "mnemonic"+passphrase, 2048, 64, sha512.New)`. -/
def ksSeedFromMnemonic (mnemonic passphrase : String) : Except String (List Nat) :=
  if ¬ ksValidateMnemonic mnemonic then Except.error "无效的助记词"
  else Except.ok (pbkdf2Key (strBytes mnemonic) (strBytes ("mnemonic" ++ passphrase)) 2048 64 64 sha512 128)

/-! ## src/unnamed/part_026: derivation paths, accounts, storage, address codecs -/

/-- BIP-44 path components; hardened components carry bit 31. -/
structure DerivationPath where
  Purpose : Nat
  CoinType : Nat
  AccountIndex : Nat
  Change : Nat
  AddressIndex : Nat
deriving DecidableEq

/-- `strconv.ParseUint(s, 10, 32)`: nonempty all-digit strings below 2^32
(no sign, no underscores in base 10). -/
def parseUint32 (component : String) : Except String Nat :=
  if component.data = [] then Except.error ("invalid component " ++ component)
  else if component.data.all (fun c => decide (48 ≤ c.toNat ∧ c.toNat ≤ 57)) then
    let v := component.data.foldl (fun a c => 10 * a + (c.toNat - 48)) 0
    if v < 4294967296 then Except.ok v else Except.error ("invalid component " ++ component)
  else Except.error ("invalid component " ++ component)

/-- `parsePathComponent`: strip a trailing apostrophe (code point 39) as the
hardened marker, parse the digits, set bit 31 when hardened. -/
def parsePathComponent (component : String) : Except String Nat :=
  if component.data.getLast? = some (Char.ofNat 39) then
    (parseUint32 (String.mk component.data.dropLast)).map (fun v => v ||| 2147483648)
  else parseUint32 component

/-- `strings.Split` at one character. -/
def goSplit (c : Char) (s : String) : List String :=
  (splitOnChar c s.data).map (fun g => String.mk g)

/-- `ParseDerivationPath`: require the `m/` head, split the rest at `/` into
exactly 5 components, parse each in order, and require change ∈ {0, 1}. -/
def ParseDerivationPath (path : String) : Except String DerivationPath :=
  if ¬ ([Char.ofNat 109, Char.ofNat 47].isPrefixOf path.data) then
    Except.error "invalid BIP44 path format, should start with m/"
  else
    let components := goSplit (Char.ofNat 47) (String.mk (path.data.drop 2))
    if components.length ≠ 5 then Except.error "BIP44 path should have exactly 5 components"
    else do
      let purpose ← parsePathComponent (components.getD 0 "")
      let coinType ← parsePathComponent (components.getD 1 "")
      let account ← parsePathComponent (components.getD 2 "")
      let change ← parsePathComponent (components.getD 3 "")
      if change ≠ 0 ∧ change ≠ 1 then Except.error "change should be 0 or 1"
      else do
        let addressIndex ← parsePathComponent (components.getD 4 "")
        Except.ok ⟨purpose, coinType, account, change, addressIndex⟩

/-- `DerivationPath.String()`: hardened bits stripped from the first three levels,
which are printed with the apostrophe marker. -/
def pathString (p : DerivationPath) : String :=
  "m/" ++ Nat.repr (p.Purpose &&& 2147483647) ++ "'/" ++
  Nat.repr (p.CoinType &&& 2147483647) ++ "'/" ++
  Nat.repr (p.AccountIndex &&& 2147483647) ++ "'/" ++
  Nat.repr p.Change ++ "/" ++ Nat.repr p.AddressIndex

/-- `DerivationPath.MaskSuffix`: zero the change and address-index levels. -/
def MaskSuffix (p : DerivationPath) : DerivationPath :=
  ⟨p.Purpose, p.CoinType, p.AccountIndex, 0, 0⟩

/-- pkg/coin `CoinSymbol`: clear the hardened bit, look up the registry. -/
def coinSymbol (coinType : Nat) : String :=
  let baseType := coinType &&& 2147483647
  if baseType = 0 then "BTC"
  else if baseType = 60 then "ETH"
  else if baseType = 501 then "SOL"
  else if baseType = 714 then "BNB"
  else if baseType = 784 then "SUI"
  else ""

/-- The persisted account record. -/
structure CoinAccount where
  ID : String
  CoinSymbol : String
  DerivationPath : String
  EncryptedAccountPrivateKey : String
deriving DecidableEq

/-- `CoinAccount.CoinType()`: `dp, _ := ParseDerivationPath(c.DerivationPath); return dp.CoinType`.
When the parse fails, `dp` is Go's nil pointer and the field access panics; the
panic is modelled as `none`. -/
def CoinAccount.CoinTypeRun (c : CoinAccount) : Option Nat :=
  match ParseDerivationPath c.DerivationPath with
  | Except.ok dp => some dp.CoinType
  | Except.error _ => none

/-- The persisted per-address record. -/
structure AddressKey where
  AccountID : String
  EncryptedPrivateKey : String
  PublicKey : String
  Address : String
  ChangeType : Nat
  AddressIndex : Nat
deriving DecidableEq

/-- The persisted root-wallet record (hex-string sealed blobs). -/
structure HDRootWallet where
  EncryptedMnemonic : String
  EncryptedSeed : String
  CreationTime : Nat
deriving DecidableEq

/-- `ETHAddressGenerator.GenerateAddress`: 64-byte key required; the source hashes
with SHA-256 (its comment: Keccak-256 should be used) and keeps the last 20 bytes. -/
def ETHGenerateAddress (publicKey : List Nat) : Except String String :=
  if publicKey.length ≠ 64 then Except.error "ETH requires 64-byte uncompressed public key"
  else
    let hash := sha256 publicKey
    Except.ok ("0x" ++ hexEncode (hash.drop (hash.length - 20)))

/-- `DefaultAccountManager.IDString` with the default `maxLength = 0` (the
constructor never sets it): no truncation. -/
def IDString (derivationPath : String) : String :=
  "file_" ++ hexEncode (sha256 (strBytes derivationPath))

/-- `FileStorage.SaveAccount` on the decoded accounts list: replace the first
record with an equal id, else append. -/
def replaceById : List CoinAccount → CoinAccount → List CoinAccount
  | [], account => [account]
  | a :: rest, account =>
    if a.ID = account.ID then account :: rest else a :: replaceById rest account

/-! ## internal/core `wallet_manager.go`: root-wallet lifecycle

The storage is modelled as the decoded `root_wallet.json` content
(`Option HDRootWallet`, `none` when the file is absent); the mnemonic and
crypto services are the interface parameters the manager is constructed with,
with the CSPRNG threaded through a state `ε`. -/

structure WalletServices (ε : Type) where
  generateMnemonic : Except String String
  validateMnemonic : String → Bool
  generateSeedFromMnemonic : String → String → List Nat
  encryptData : List Nat → String → ε → Except String (List Nat) × ε
  now : Nat

/-- `DefaultWalletManager.CreateNewWallet`: refuse when a root wallet exists,
otherwise generate a mnemonic at strength 256, derive the seed with the wallet
password as BIP-39 passphrase, seal both, persist. -/
def CreateNewWallet {ε : Type} (sv : WalletServices ε) (stored : Option HDRootWallet)
    (password : String) (r : ε) : Except String (HDRootWallet × Option HDRootWallet × ε) :=
  match stored with
  | some _ => Except.error "钱包已存在"
  | none =>
    match sv.generateMnemonic with
    | Except.error e => Except.error ("生成助记词失败: " ++ e)
    | Except.ok mnemonic =>
      let seed := sv.generateSeedFromMnemonic mnemonic password
      match sv.encryptData (strBytes mnemonic) password r with
      | (Except.error e, _) => Except.error ("加密助记词失败: " ++ e)
      | (Except.ok em, r1) =>
        match sv.encryptData seed password r1 with
        | (Except.error e, _) => Except.error ("加密种子失败: " ++ e)
        | (Except.ok es, r2) =>
          let wallet : HDRootWallet := ⟨hexEncode em, hexEncode es, sv.now⟩
          Except.ok (wallet, some wallet, r2)

/-- `DefaultWalletManager.RestoreWalletFromMnemonic`: validate the mnemonic, then
rebuild and persist the root wallet — the source never checks whether one exists. -/
def RestoreWalletFromMnemonic {ε : Type} (sv : WalletServices ε) (stored : Option HDRootWallet)
    (mnemonic password : String) (r : ε) : Except String (HDRootWallet × Option HDRootWallet × ε) :=
  if ¬ sv.validateMnemonic mnemonic then Except.error "无效的助记词"
  else
    let seed := sv.generateSeedFromMnemonic mnemonic password
    match sv.encryptData (strBytes mnemonic) password r with
    | (Except.error e, _) => Except.error ("加密助记词失败: " ++ e)
    | (Except.ok em, r1) =>
      match sv.encryptData seed password r1 with
      | (Except.error e, _) => Except.error ("加密种子失败: " ++ e)
      | (Except.ok es, r2) =>
        let wallet : HDRootWallet := ⟨hexEncode em, hexEncode es, sv.now⟩
        Except.ok (wallet, some wallet, r2)

/-! ## internal/core `wallet.go`: `DefaultAccountManager`

`deriveSerializedAccountKey` stands for `deriveAccountKey` followed by
`accountKey.Serialize()` (walletManager seed unsealing and BIP-32 child steps,
both external library calls), `password` for `security.Password()`, and
`encryptData` for `crypto.EncryptData` with the CSPRNG state `ε` threaded. -/

structure AccountDeps (ε : Type) where
  isLocked : Bool
  deriveSerializedAccountKey : DerivationPath → Except String (List Nat)
  password : Except String String
  encryptData : List Nat → String → ε → Except String String × ε

/-- `DefaultAccountManager.CreateNewAccount`: lock check, coin lookup, suffix
masking, key derivation, sealing, record construction, `SaveAccount`. There is
no lookup of an existing record: every call derives and seals again, and
`SaveAccount` replaces the stored record of the same id. -/
def CreateNewAccount {ε : Type} (deps : AccountDeps ε) (derivationPath : DerivationPath)
    (accounts : List CoinAccount) (r : ε) : Except String (CoinAccount × List CoinAccount × ε) :=
  if deps.isLocked then Except.error "wallet is locked"
  else
    let cs := coinSymbol derivationPath.CoinType
    if cs = "" then Except.error "该币种暂不支持"
    else
      let dp := MaskSuffix derivationPath
      match deps.deriveSerializedAccountKey dp with
      | Except.error e => Except.error ("failed to derive account key: " ++ e)
      | Except.ok serializedKey =>
        match deps.password with
        | Except.error e => Except.error e
        | Except.ok password =>
          match deps.encryptData serializedKey password r with
          | (Except.error e, _) => Except.error ("failed to encrypt account private key: " ++ e)
          | (Except.ok encryptedPrivateKey, r2) =>
            let account : CoinAccount :=
              ⟨IDString (pathString dp), cs, pathString dp, encryptedPrivateKey⟩
            Except.ok (account, replaceById accounts account, r2)

/-- The filter loop of `GetAccountsByCoin`: `account.CoinType() == coinType`,
aborting (`none`) at the first record whose path does not parse, as the Go
`CoinType()` panic does. -/
def filterByCoin (coinType : Nat) : List CoinAccount → Option (List CoinAccount)
  | [] => some []
  | a :: rest =>
    match a.CoinTypeRun with
    | none => none
    | some ct =>
      match filterByCoin coinType rest with
      | none => none
      | some l => some (if ct = coinType then a :: l else l)

/-- `DefaultAccountManager.GetAccountsByCoin`: rejects with `ErrWalletLocked`
while locked, otherwise filters the stored records. -/
def GetAccountsByCoin (isLocked : Bool) (accounts : List CoinAccount) (coinType : Nat) :
    Option (Except String (List CoinAccount)) :=
  if isLocked then some (Except.error "wallet is locked")
  else (filterByCoin coinType accounts).map (fun l => Except.ok l)

/-- `DefaultAccountManager.GetAddresses` = `storage.LoadAddresses(accountID)`:
no lock check; a missing per-account file reads as the empty list. The address
store is modelled as the decoded contents of the per-account files. -/
def GetAddresses (addressStore : List (String × List AddressKey)) (accountID : String) :
    Except String (List AddressKey) :=
  Except.ok (match addressStore.find? (fun p => decide (p.1 = accountID)) with
             | some p => p.2
             | none => [])

/-! ## Concrete instances used by the closed counterexamples and witnesses -/

/-- A concrete service bundle for the root-wallet scenarios: mnemonic generation
yields "m", validation accepts everything, the seed is `[0]`, encryption is the
identity on the data. -/
def sv0 : WalletServices Unit :=
  ⟨Except.ok "m", fun _ => true, fun _ _ => [0], fun d _ r => (Except.ok d, r), 7⟩

def w0 : HDRootWallet := ⟨"aa", "bb", 1⟩

/-- Concrete account-manager dependencies: unlocked, derivation yields `[1]`,
the password is "pw", and sealing returns `"ct" ++ counter` with a fresh counter
per call — distinct ciphertexts per seal, as an AEAD under fresh salt and nonce
produces. -/
def deps8 : AccountDeps Nat :=
  ⟨false, fun _ => Except.ok [1], Except.ok "pw",
   fun _ _ n => (Except.ok ("ct" ++ Nat.repr n), n + 1)⟩

/-- m/44'/0'/0'/0/0: the BTC account anchor. -/
def dp8 : DerivationPath := ⟨2147483692, 2147483648, 2147483648, 0, 0⟩

def c8run1 : Except String (CoinAccount × List CoinAccount × Nat) :=
  CreateNewAccount deps8 dp8 [] 0

def c8run2 : Except String (CoinAccount × List CoinAccount × Nat) :=
  match c8run1 with
  | Except.ok (_, s1, r1) => CreateNewAccount deps8 dp8 s1 r1
  | Except.error e => Except.error e

/-- A concrete AEAD instance for the ChaCha20-Poly1305 witness: sealing appends a
16-byte tag of zeros, opening always rejects (never reached). -/
def cc0 : ChaChaAEAD :=
  ⟨fun _ _ p => p ++ List.replicate 16 0, fun _ _ _ => Except.error ()⟩

def kdf0 : String → List Nat → List Nat := fun _ _ => List.replicate 32 0


/-! ## Helper lemmas -/

theorem natToBeBytes_length (n v : Nat) : (natToBeBytes n v).length = n := by
  induction n generalizing v with
  | zero => rfl
  | succ n ih => simp [natToBeBytes, ih]

theorem sha256_length (msg : List Nat) : (sha256 msg).length = 32 := by
  simp [sha256, stateToBytes32, natToBeBytes_length]

theorem sha512_length (msg : List Nat) : (sha512 msg).length = 64 := by
  simp [sha512, stateToBytes64, natToBeBytes_length]

theorem hmac_length (hash : List Nat → List Nat) (hLen : Nat)
    (hh : ∀ m, (hash m).length = hLen) (blockSize : Nat) (key msg : List Nat) :
    (hmac hash blockSize key msg).length = hLen := by
  simp [hmac, hh]

theorem zipXor_length (a b : List Nat) : (zipXor a b).length = min a.length b.length := by
  simp [zipXor]

theorem pbkdf2Inner_length (prf : List Nat → List Nat) (hLen : Nat)
    (hprf : ∀ u, (prf u).length = hLen) :
    ∀ (n : Nat) (u acc : List Nat), acc.length = hLen →
      (pbkdf2Inner prf n u acc).length = hLen := by
  intro n
  induction n with
  | zero => intro u acc h; exact h
  | succ n ih =>
    intro u acc h
    simp only [pbkdf2Inner]
    exact ih _ _ (by simp [zipXor_length, h, hprf])

theorem pbkdf2Block_length (prf : List Nat → List Nat) (hLen : Nat)
    (hprf : ∀ u, (prf u).length = hLen) (salt : List Nat) (iter i : Nat) :
    (pbkdf2Block prf salt iter i).length = hLen := by
  simp only [pbkdf2Block]
  exact pbkdf2Inner_length prf hLen hprf _ _ _ (hprf _)

theorem pbkdf2Key_length (password salt : List Nat) (iter keyLen hLen : Nat)
    (hash : List Nat → List Nat) (blockSize : Nat) (hpos : 0 < hLen)
    (hh : ∀ m, (hash m).length = hLen) :
    (pbkdf2Key password salt iter keyLen hLen hash blockSize).length = keyLen := by
  simp only [pbkdf2Key]
  rw [List.length_take, List.length_flatten, List.map_map]
  have hmap : (List.range ((keyLen + hLen - 1) / hLen)).map
      (List.length ∘ fun i => pbkdf2Block (hmac hash blockSize password) salt iter (i + 1)) =
      (List.range ((keyLen + hLen - 1) / hLen)).map (fun _ => hLen) :=
    List.map_congr_left (fun i _ =>
      pbkdf2Block_length _ hLen (fun u => hmac_length hash hLen hh blockSize password u) _ _ _)
  rw [hmap, List.map_const', List.length_range, List.sum_replicate, smul_eq_mul]
  have hlt : (keyLen + hLen - 1) % hLen < hLen := Nat.mod_lt _ hpos
  generalize hq : (keyLen + hLen - 1) / hLen * hLen = X
  have hdm : X + (keyLen + hLen - 1) % hLen = keyLen + hLen - 1 := by
    rw [← hq, mul_comm]
    exact Nat.div_add_mod _ _
  omega

theorem iterSha256_eq_iterate (n : Nat) (k : List Nat) : iterSha256 n k = sha256^[n] k := by
  induction n generalizing k with
  | zero => rfl
  | succ n ih => rw [iterSha256, ih, Function.iterate_succ_apply]

theorem iterSha256_length (n : Nat) (k : List Nat) (h : k.length = 32) :
    (iterSha256 n k).length = 32 := by
  induction n generalizing k with
  | zero => exact h
  | succ n ih =>
    simp only [iterSha256]
    exact ih _ (sha256_length k)

theorem hexVal_hexCharOfNat : ∀ n < 16, hexVal (hexCharOfNat n) = some n := by decide

theorem hexPairs_pairs (l : List Nat) (h : ∀ b ∈ l, b < 256) :
    hexPairs ((l.map (fun b => [hexCharOfNat (b / 16), hexCharOfNat (b % 16)])).flatten) =
      some l := by
  induction l with
  | nil => rfl
  | cons b rest ih =>
    have hb : b < 256 := h b (List.mem_cons_self _ _)
    have hdiv : b / 16 < 16 := by omega
    have hmod : b % 16 < 16 := Nat.mod_lt _ (by norm_num)
    have ihr := ih (fun x hx => h x (List.mem_cons_of_mem _ hx))
    have hval : 16 * (b / 16) + b % 16 = b := by omega
    simp [hexPairs, hexVal_hexCharOfNat _ hdiv, hexVal_hexCharOfNat _ hmod, ihr, hval]

theorem hexDecode_hexEncode (l : List Nat) (h : ∀ b ∈ l, b < 256) :
    hexDecode (hexEncode l) = some l :=
  hexPairs_pairs l h

theorem filterByCoin_sublist (coinType : Nat) :
    ∀ (l r : List CoinAccount), filterByCoin coinType l = some r → r.Sublist l := by
  intro l
  induction l with
  | nil =>
    intro r h
    simp only [filterByCoin, Option.some.injEq] at h
    subst h
    exact List.Sublist.refl _
  | cons a rest ih =>
    intro r h
    simp only [filterByCoin] at h
    cases hct : a.CoinTypeRun with
    | none => rw [hct] at h; cases h
    | some ct =>
      rw [hct] at h
      cases hrec : filterByCoin coinType rest with
      | none => rw [hrec] at h; cases h
      | some l2 =>
        rw [hrec] at h
        simp only [Option.some.injEq] at h
        subst h
        by_cases hc : ct = coinType
        · rw [if_pos hc]
          exact List.Sublist.cons₂ a (ih l2 hrec)
        · rw [if_neg hc]
          exact List.Sublist.cons a (ih l2 hrec)

/-! ## Claim theorems -/

/-- C1: the claim states that for every payload and password, decrypting the
output of Encrypt with the same password returns the payload. For the
ChaCha20-Poly1305 service the code writes a 12-byte nonce
(`aead.NonceSize()`) during Encrypt but extracts a 24-byte nonce
(`chacha20poly1305.NonceSizeX`) during Decrypt, so `aead.Open` is always
called with a wrongly-sized nonce and panics: the decryption of a freshly
encrypted blob never returns the payload, with any password. -/
theorem C1_chacha_decrypt_panics (cc : ChaChaAEAD) (kdf : String → List Nat → List Nat)
    (salt nonce plaintext : List Nat) (password attempt : String)
    (hsalt : salt.length = 16) (hnonce : nonce.length = 12)
    (hseal : 12 ≤ (cc.sealA (kdf password salt) nonce plaintext).length)
    (hbytes : ∀ b ∈ salt ++ nonce ++ cc.sealA (kdf password salt) nonce plaintext, b < 256) :
    chachaDecrypt cc kdf (chachaEncrypt cc kdf salt nonce plaintext password) attempt = none := by
  have hdec := hexDecode_hexEncode _ hbytes
  simp only [chachaDecrypt, chachaEncrypt, chachaNonceSizeX, chachaNonceSize, hdec]
  have hlen : (salt ++ nonce ++ cc.sealA (kdf password salt) nonce plaintext).length =
      28 + (cc.sealA (kdf password salt) nonce plaintext).length := by
    simp [hsalt, hnonce]
    omega
  rw [if_neg (by omega)]
  rw [if_neg (by rw [List.length_take, List.length_drop, hlen]; omega)]

/-- C1 witness: a concrete run with a toy AEAD instance at payload [1, 2, 3]. -/
theorem C1_witness :
    chachaDecrypt cc0 kdf0
      (chachaEncrypt cc0 kdf0 (List.replicate 16 0) (List.replicate 12 0) [1, 2, 3] "pw") "pw" =
      none :=
  C1_chacha_decrypt_panics cc0 kdf0 (List.replicate 16 0) (List.replicate 12 0) [1, 2, 3]
    "pw" "pw" (by decide) (by decide) (by decide) (by decide)

/-- C2: the claim states that all three seed-derivation functions compute
PBKDF2-HMAC-SHA-512 (2048 iterations, 64 bytes, salt "mnemonic" ++ passphrase).
In the code, the pkg/mnemonic version does; the part_000 version instantiates
PBKDF2 with HMAC-SHA-256 instead (its PRF provably differs from HMAC-SHA-512);
and the part_014 keyService version returns an error instead of the expansion
whenever its validation rejects the mnemonic (e.g. "hello"). -/
theorem C2_seed_prf_mismatch (m pp : String) :
    part000GenerateSeed m pp =
      pbkdf2Key (strBytes m) (strBytes ("mnemonic" ++ pp)) 2048 64 32 sha256 64 ∧
    pkgGenerateSeed m pp =
      pbkdf2Key (strBytes m) (strBytes ("mnemonic" ++ pp)) 2048 64 64 sha512 128 ∧
    (part000GenerateSeed m pp).length = 64 ∧
    (pkgGenerateSeed m pp).length = 64 ∧
    hmac sha256 64 (strBytes m) [] ≠ hmac sha512 128 (strBytes m) [] ∧
    ksSeedFromMnemonic "hello" "" = Except.error "无效的助记词" := by
  refine ⟨rfl, rfl, ?_, ?_, ?_, rfl⟩
  · exact pbkdf2Key_length _ _ _ _ _ _ _ (by norm_num) sha256_length
  · exact pbkdf2Key_length _ _ _ _ _ _ _ (by norm_num) sha512_length
  · intro h
    have h32 := hmac_length sha256 32 sha256_length 64 (strBytes m) []
    have h64 := hmac_length sha512 64 sha512_length 128 (strBytes m) []
    rw [h] at h32
    omega

/-- C3: the claim states the generated word sequence encodes the entropy
followed by the leading strength/32 bits of SHA-256. At strength 128 with the
all-zero entropy the code emits "abandon" twelve times (the appended checksum
byte holds its 4 checksum bits in the low positions, and the encoder reads the
byte's top 4 zero bits), while the claimed encoding ends in "about" (checksum
0011 from SHA-256 = 0x37...): the generated mnemonic has a wrong checksum. -/
theorem C3_checksum_misencoded :
    generateMnemonicFromEntropy wordLists16 128 (List.replicate 16 0) =
      Except.ok "abandon abandon abandon abandon abandon abandon abandon abandon abandon abandon abandon abandon" ∧
    specBip39Mnemonic wordLists16 (List.replicate 16 0) =
      "abandon abandon abandon abandon abandon abandon abandon abandon abandon abandon abandon about" ∧
    generateMnemonicFromEntropy wordLists16 128 (List.replicate 16 0) ≠
      Except.ok (specBip39Mnemonic wordLists16 (List.replicate 16 0)) := by
  refine ⟨rfl, rfl, ?_⟩
  intro h
  have ha : generateMnemonicFromEntropy wordLists16 128 (List.replicate 16 0) =
      Except.ok "abandon abandon abandon abandon abandon abandon abandon abandon abandon abandon abandon abandon" := rfl
  have hb : specBip39Mnemonic wordLists16 (List.replicate 16 0) =
      "abandon abandon abandon abandon abandon abandon abandon abandon abandon abandon abandon about" := rfl
  rw [ha, hb] at h
  have h2 := Except.ok.inj h
  exact absurd h2 (by decide)

/-- C4 counterexample: with a root wallet already stored, the claim says
RestoreWalletFromMnemonic fails with a wallet-already-exists error and leaves
the stored wallet unchanged; the code succeeds and replaces it. -/
theorem C4_counterexample :
    RestoreWalletFromMnemonic sv0 (some w0) "mn" "pw" () =
      Except.ok (⟨"6d6e", "00", 7⟩, some ⟨"6d6e", "00", 7⟩, ()) ∧
    some (⟨"6d6e", "00", 7⟩ : HDRootWallet) ≠ some w0 :=
  ⟨rfl, by decide⟩

/-- C4 (amended): a second CreateNewWallet fails with the wallet-already-exists
error and does not touch the store, but RestoreWalletFromMnemonic performs no
existence check: with a mnemonic its service validates, it succeeds and
overwrites the stored root wallet with the freshly sealed one. -/
theorem C4_create_guard_restore_overwrites {ε : Type} (sv : WalletServices ε)
    (w : HDRootWallet) (mnemonic password : String) (r r1 r2 : ε) (em es : List Nat)
    (hvalid : sv.validateMnemonic mnemonic = true)
    (henc1 : sv.encryptData (strBytes mnemonic) password r = (Except.ok em, r1))
    (henc2 : sv.encryptData (sv.generateSeedFromMnemonic mnemonic password) password r1 =
      (Except.ok es, r2)) :
    CreateNewWallet sv (some w) password r = Except.error "钱包已存在" ∧
    RestoreWalletFromMnemonic sv (some w) mnemonic password r =
      Except.ok (⟨hexEncode em, hexEncode es, sv.now⟩,
        some ⟨hexEncode em, hexEncode es, sv.now⟩, r2) := by
  constructor
  · rfl
  · simp only [RestoreWalletFromMnemonic, hvalid, henc1, henc2]
    simp

/-- C4 witness: the amended statement applied at the concrete service bundle. -/
theorem C4_witness :
    CreateNewWallet sv0 (some w0) "pw" () = Except.error "钱包已存在" ∧
    RestoreWalletFromMnemonic sv0 (some w0) "mn" "pw" () =
      Except.ok (⟨hexEncode (strBytes "mn"), hexEncode [0], sv0.now⟩,
        some ⟨hexEncode (strBytes "mn"), hexEncode [0], sv0.now⟩, ()) :=
  C4_create_guard_restore_overwrites sv0 w0 "mn" "pw" () () () (strBytes "mn") [0]
    rfl rfl rfl

/-- C5: the claim states the ETH generator returns 0x plus the lowercase hex of
the last 20 bytes of the Keccak-256 hash, so that the standard test vector
0x9858EfFD... is reproduced. The code hashes with SHA-256 (its own comment says
Keccak-256 should be used): on the all-zero 64-byte key it returns the address
built from SHA-256(0^64) = f5a5fd42...59fb4b, not from Keccak-256. -/
theorem C5_eth_uses_sha256 :
    ETHGenerateAddress (List.replicate 64 0) =
      Except.ok "0xd309979b43003d2320d9f0e8ea9831a92759fb4b" := rfl

/-- C6 counterexample: the claim states DeriveKey returns the PBKDF2-HMAC-SHA-256
key of password and salt, in particular depending on the salt; the code ignores
the salt entirely, so two distinct salts give the same key. -/
theorem C6_counterexample :
    PBKDF2SHA256.DeriveKey NewPBKDF2SHA256 "password" (List.replicate 16 0) =
      PBKDF2SHA256.DeriveKey NewPBKDF2SHA256 "password" (List.replicate 16 255) ∧
    (List.replicate 16 0 : List Nat) ≠ List.replicate 16 255 :=
  ⟨rfl, by decide⟩

/-- C6 (amended): DeriveKey ignores the salt and is not PBKDF2: it returns the
first 32 bytes of the 100000-fold iterated plain SHA-256 of the password
(one initial application plus 99999 in the loop); it never fails. -/
theorem C6_iterated_sha256_ignores_salt (password : String) (salt salt2 : List Nat) :
    PBKDF2SHA256.DeriveKey NewPBKDF2SHA256 password salt =
      (sha256^[99999] (sha256 (strBytes password))).take 32 ∧
    (PBKDF2SHA256.DeriveKey NewPBKDF2SHA256 password salt).length = 32 ∧
    PBKDF2SHA256.DeriveKey NewPBKDF2SHA256 password salt =
      PBKDF2SHA256.DeriveKey NewPBKDF2SHA256 password salt2 := by
  refine ⟨?_, ?_, rfl⟩
  · show (iterSha256 (100000 - 1) (sha256 (strBytes password))).take 32 = _
    rw [iterSha256_eq_iterate, show (100000 - 1 : Nat) = 99999 from rfl]
  · show ((iterSha256 (100000 - 1) (sha256 (strBytes password))).take 32).length = 32
    rw [List.length_take, iterSha256_length _ _ (sha256_length _)]
    exact min_self 32

/-- C7: the claim states MnemonicToEntropy ∘ EntropyToMnemonic is the identity
for every valid entropy. At the all-zero 16-byte entropy, EntropyToMnemonic
emits "abandon" twelve times (the checksum bits are misplaced into the dropped
low bits of the appended byte), and MnemonicToEntropy then rejects that
mnemonic with a checksum failure (expected checksum 3, embedded checksum 0). -/
theorem C7_round_trip_fails :
    ksEntropyToMnemonic (List.replicate 16 0) =
      Except.ok "abandon abandon abandon abandon abandon abandon abandon abandon abandon abandon abandon abandon" ∧
    Except.bind (ksEntropyToMnemonic (List.replicate 16 0)) ksMnemonicToEntropy =
      Except.error "助记词校验和验证失败" :=
  ⟨rfl, rfl⟩

/-- C8 counterexample: the claim states the second CreateNewAccount with the
same path returns an equal CoinAccount and does not re-seal; in the code the
second call derives and seals again, so with fresh sealing randomness the two
returned records carry different sealed keys ("ct0" vs "ct1"), even though the
store keeps a single record. -/
theorem C8_counterexample :
    c8run1.map (fun t => t.1.EncryptedAccountPrivateKey) = Except.ok "ct0" ∧
    c8run2.map (fun t => t.1.EncryptedAccountPrivateKey) = Except.ok "ct1" ∧
    c8run2.map (fun t => (t.2.1).length) = Except.ok 1 ∧
    ("ct0" : String) ≠ "ct1" :=
  ⟨rfl, rfl, rfl, by decide⟩

/-- C8 (amended): two CreateNewAccount calls with the same path leave a single
on-disk record (SaveAccount replaces the record of the equal id) and the two
returned accounts agree on id, coin symbol and derivation path, but the second
call re-derives and re-seals: its returned (and stored) sealed key is the
output of the second encryption, not the first. -/
theorem C8_second_create_reseals {ε : Type} (deps : AccountDeps ε) (dp : DerivationPath)
    (r0 r1 r2 : ε) (k : List Nat) (pw e1 e2 cs : String)
    (hlock : deps.isLocked = false)
    (hcs : coinSymbol dp.CoinType = cs) (hcsne : cs ≠ "")
    (hder : deps.deriveSerializedAccountKey (MaskSuffix dp) = Except.ok k)
    (hpw : deps.password = Except.ok pw)
    (henc1 : deps.encryptData k pw r0 = (Except.ok e1, r1))
    (henc2 : deps.encryptData k pw r1 = (Except.ok e2, r2)) :
    CreateNewAccount deps dp [] r0 =
      Except.ok (⟨IDString (pathString (MaskSuffix dp)), cs, pathString (MaskSuffix dp), e1⟩,
        [⟨IDString (pathString (MaskSuffix dp)), cs, pathString (MaskSuffix dp), e1⟩], r1) ∧
    CreateNewAccount deps dp
        [⟨IDString (pathString (MaskSuffix dp)), cs, pathString (MaskSuffix dp), e1⟩] r1 =
      Except.ok (⟨IDString (pathString (MaskSuffix dp)), cs, pathString (MaskSuffix dp), e2⟩,
        [⟨IDString (pathString (MaskSuffix dp)), cs, pathString (MaskSuffix dp), e2⟩], r2) := by
  constructor
  · simp only [CreateNewAccount, hlock, hcs, hder, hpw, henc1, replaceById]
    simp [hcsne]
  · simp only [CreateNewAccount, hlock, hcs, hder, hpw, henc2, replaceById]
    simp [hcsne]

/-- C8 witness: the amended statement at the concrete dependency bundle. -/
theorem C8_witness :
    CreateNewAccount deps8 dp8 [] 0 =
      Except.ok (⟨IDString (pathString (MaskSuffix dp8)), "BTC", pathString (MaskSuffix dp8), "ct0"⟩,
        [⟨IDString (pathString (MaskSuffix dp8)), "BTC", pathString (MaskSuffix dp8), "ct0"⟩], 1) ∧
    CreateNewAccount deps8 dp8
        [⟨IDString (pathString (MaskSuffix dp8)), "BTC", pathString (MaskSuffix dp8), "ct0"⟩] 1 =
      Except.ok (⟨IDString (pathString (MaskSuffix dp8)), "BTC", pathString (MaskSuffix dp8), "ct1"⟩,
        [⟨IDString (pathString (MaskSuffix dp8)), "BTC", pathString (MaskSuffix dp8), "ct1"⟩], 2) :=
  C8_second_create_reseals deps8 dp8 0 1 2 [1] "pw" "ct0" "ct1" "BTC"
    rfl rfl (by decide) rfl rfl rfl rfl

/-- C9 counterexample: the claim states the listings never return a
locked-wallet error while Locked; GetAccountsByCoin checks the lock first and
returns exactly that error. -/
theorem C9_counterexample :
    GetAccountsByCoin true [] 0 = some (Except.error "wallet is locked") := rfl

/-- C9 (amended): GetAddresses is lock-independent and always succeeds with the
stored records; GetAccountsByCoin returns ErrWalletLocked while Locked, and
while Unlocked returns a subsequence of the stored records (the records
themselves, sealed fields untouched) filtered by coin type. -/
theorem C9_listings (accounts : List CoinAccount) (addressStore : List (String × List AddressKey))
    (coinType : Nat) (accountID : String) (r : List CoinAccount)
    (hfilter : filterByCoin coinType accounts = some r) :
    GetAccountsByCoin true accounts coinType = some (Except.error "wallet is locked") ∧
    GetAccountsByCoin false accounts coinType = some (Except.ok r) ∧
    List.Sublist r accounts ∧
    ∃ l, GetAddresses addressStore accountID = Except.ok l := by
  refine ⟨rfl, ?_, filterByCoin_sublist _ _ _ hfilter, ⟨_, rfl⟩⟩
  simp [GetAccountsByCoin, hfilter]

/-- C9 witness: the amended statement at the empty catalog. -/
theorem C9_witness :
    GetAccountsByCoin true [] 0 = some (Except.error "wallet is locked") ∧
    GetAccountsByCoin false [] 0 = some (Except.ok []) ∧
    List.Sublist ([] : List CoinAccount) [] ∧
    ∃ l, GetAddresses [] "acc" = Except.ok l :=
  C9_listings [] [] 0 "acc" [] rfl

/-- C10: the claim states CoinType() returns a value without failing for every
stored DerivationPath string; on a string that does not parse,
ParseDerivationPath returns a nil pointer with the discarded error and
`dp.CoinType` dereferences nil — the modelled run panics (`none`). -/
theorem C10_cointype_panics :
    CoinAccount.CoinTypeRun ⟨"file_bad", "BTC", "not-a-path", "00"⟩ = none := rfl

/-! ## Test vectors pinning the hash models to FIPS 180-4 -/

/-- SHA-256 of "abc" matches the FIPS 180-4 test vector. -/
theorem sha256_vector_abc :
    hexEncode (sha256 (strBytes "abc")) =
      "ba7816bf8f01cfea414140de5dae2223b00361a396177a9cb410ff61f20015ad" := by decide

/-- SHA-256 of the empty message matches the standard vector. -/
theorem sha256_vector_empty :
    hexEncode (sha256 []) =
      "e3b0c44298fc1c149afbf4c8996fb92427ae41e4649b934ca495991b7852b855" := by decide

/-- SHA-256 of sixteen zero bytes (the hash behind the mnemonic checksums here). -/
theorem sha256_vector_zero16 :
    hexEncode (sha256 (List.replicate 16 0)) =
      "374708fff7719dd5979ec875d56cd2286f6d3cf7ec317a3b25632aab28ec37bb" := by decide

/-- SHA-512 of "abc" matches the FIPS 180-4 test vector. -/
theorem sha512_vector_abc :
    hexEncode (sha512 (strBytes "abc")) =
      "ddaf35a193617abacc417349ae20413112e6fa4e89a97ea20a9eeee64b55d39a2192992a274fc1a836ba3c23a3feebbd454d4423643ce80e2a9ac94fa54ca49f" := by decide

end Slowmade
